import Mathlib

/-!
Shallow embedding of the watermill-benchmark core: the backend registry and
session constructor (package pkg, pub/sub definition file) and the concurrent
publish loop (src/pkg/publish.go), together with theorems checking the
natural-language specification against this embedding.

Modelling conventions:
- Go `int` becomes `Int`; byte buffers become `List UInt8`.
- The backend constructors, publisher and subscriber perform network I/O; they
  are modelled by their observable identity only.  The identifier-generator
  functions (`watermill.NewUUID`, `watermill.NewULID`, `watermill.NewShortUUID`,
  `newBinaryULID`) are modelled by the enumeration `IdGen` of which generator is
  used; a concrete generated identifier is a generator tag plus a call sequence
  number (`MsgId`), reflecting that each call yields a fresh value.
- The publisher is modelled by a behaviour function `Nat → Option String`
  giving the outcome of the i-th publish invocation (`none` = success).
- The `math/rand` randomness source backing the payload is modelled by
  `Except String (Nat → UInt8)`: either the read errors, or it supplies the
  byte stream that fills the buffer allocated by `make([]byte, size)`.
- The two `time.Now()` readings of a run are modelled by `Clock`; the field
  `mono` embeds the Go runtime guarantee that the readings are monotonic
  (the subtraction in `time.Sub` uses the monotonic clock).
- The concurrent worker pool is sequentialised: envelopes are handed to the
  pool in production order and each publish invocation happens exactly once,
  in that order, until the first failure panics the process.
-/

/-- Which identifier-generator function a backend definition designates. -/
inductive IdGen where
  | watermillNewUUID
  | watermillNewULID
  | watermillNewShortUUID
  | newBinaryULID
deriving DecidableEq, Repr

/-- A concrete generated identifier: the generator that produced it and the
sequence number of the call that produced it (each call is fresh). -/
structure MsgId where
  gen : IdGen
  seq : Nat
deriving DecidableEq, Repr

/-- Global fallback message count (constant defaultMessagesCount). -/
def defaultMessagesCount : Int := 1000000

/-- A registry entry: default message count and optional id generator.  The Go
struct also carries a Constructor closure performing backend I/O; invoking it
is modelled as an `Effect` recorded by `NewPubSub`. -/
structure PubSubDefinition where
  MessagesCount : Int
  UUIDFunc : Option IdGen
deriving DecidableEq, Repr

/-- The session returned by `NewPubSub`.  The Publisher and Subscriber handles
are opaque I/O resources and carry no observable state of their own, so they
are not stored; the close behaviour of a run is parametrised over their close
results instead. -/
structure PubSub where
  MessagesCount : Int
  MessageSize : Int
  Topic : String
  UUIDFunc : Option IdGen
deriving DecidableEq, Repr

/-- Side effects of `NewPubSub` that the spec talks about: invoking the
backend definition constructor (which builds the publisher and subscriber). -/
inductive Effect where
  | constructorInvoked (name : String)
deriving DecidableEq, Repr

/-- The registry `pubSubDefinitions`, entry for entry from the source.  Go
zero values: an omitted MessagesCount is 0, an omitted UUIDFunc is nil. -/
def pubSubDefinitions (name : String) : Option PubSubDefinition :=
  match name with
  | "gochannel" => some { MessagesCount := 0, UUIDFunc := none }
  | "kafka" => some { MessagesCount := 20000000, UUIDFunc := none }
  | "kafka-multinode" => some { MessagesCount := 20000000, UUIDFunc := none }
  | "nats" => some { MessagesCount := 0, UUIDFunc := none }
  | "googlecloud" => some { MessagesCount := 0, UUIDFunc := none }
  | "mysql" => some { MessagesCount := 30000, UUIDFunc := some IdGen.newBinaryULID }
  | "postgresql" => some { MessagesCount := 30000, UUIDFunc := some IdGen.watermillNewUUID }
  | "amqp" => some { MessagesCount := 100000, UUIDFunc := none }
  | _ => none

/-- Embedding of `NewPubSub`: registry lookup, constructor invocation,
message-count resolution, session construction.  The first component is the
returned `(PubSub, error)`, the second records the side effects (the
constructor is invoked before the count resolution, and only when the lookup
succeeded). -/
def NewPubSub (name topic : String) (messagesCount messageSize : Int) :
    Except String PubSub × List Effect :=
  match pubSubDefinitions name with
  | none => (Except.error ("unknown PubSub: " ++ name), [])
  | some definition =>
      (Except.ok
        { MessagesCount :=
            if messagesCount = 0 then
              if definition.MessagesCount ≠ 0 then definition.MessagesCount
              else defaultMessagesCount
            else messagesCount,
          MessageSize := messageSize,
          Topic := topic,
          UUIDFunc := definition.UUIDFunc },
       [Effect.constructorInvoked name])

/-- Which handle closes were invoked during `PubSub.Close`. -/
inductive CloseCall where
  | pub
  | sub
deriving DecidableEq, Repr

/-- Embedding of the `Close` method, parametrised over the close results of
the two handles (`none` = the handle closed without error).  Returns the
error returned to the caller and the list of close calls that were made, in
order.  Mirrors the source: an error from the publisher close is returned
immediately, before the subscriber close. -/
def PubSub.Close (ps : PubSub) (pubCloseErr subCloseErr : Option String) :
    Option String × List CloseCall :=
  match pubCloseErr with
  | some e => (some e, [CloseCall.pub])
  | none => (subCloseErr, [CloseCall.pub, CloseCall.sub])

/-- Embedding of the `payload` method: `make([]byte, ps.MessageSize)` creates
a buffer of exactly that length, then `rand.Read` either errors (and the
method returns the error) or fills the buffer from the random stream. -/
def PubSub.payload (ps : PubSub) (readResult : Except String (Nat → UInt8)) :
    Except String (List UInt8) :=
  match readResult with
  | Except.error e => Except.error e
  | Except.ok f => Except.ok ((List.range ps.MessageSize.toNat).map f)

/-- One unit of load: unique identifier, payload, correlation metadata. -/
structure Envelope where
  uuid : MsgId
  payload : List UInt8
  correlationId : Option MsgId
deriving DecidableEq, Repr

/-- The envelopes built by the producer loop of `PublishMessages`: the loop
runs while `messagesLeft > 0`, so exactly `MessagesCount.toNat` iterations,
and each iteration calls `message.NewMessage(watermill.NewULID(), msgPayload)`:
a fresh ULID from the fixed generator plus the shared payload buffer. -/
def producedEnvelopes (count : Int) (payload : List UInt8) : List Envelope :=
  (List.range count.toNat).map fun i =>
    { uuid := { gen := IdGen.watermillNewULID, seq := i },
      payload := payload,
      correlationId := none }

/-- The worker pool, sequentialised: the i-th envelope handed over gets a
fresh short-UUID correlation identifier stamped into its metadata, then the
publisher is invoked on it; a publish error panics, ending the pass.  Returns
the envelopes on which the publisher was actually invoked (in order, each
exactly once) and the panic error, if any. -/
def publishLoop (pubBehavior : Nat → Option String) :
    Nat → List Envelope → List Envelope × Option String
  | _, [] => ([], none)
  | i, env :: rest =>
    match pubBehavior i with
    | some e =>
        ([{ env with correlationId := some { gen := IdGen.watermillNewShortUUID, seq := i } }],
         some e)
    | none =>
        ({ env with correlationId := some { gen := IdGen.watermillNewShortUUID, seq := i } } ::
           (publishLoop pubBehavior (i + 1) rest).1,
         (publishLoop pubBehavior (i + 1) rest).2)

/-- How a run of `PublishMessages` ends: either the function returns to its
caller (`ret none` = nil error, `ret (some e)` = a returned error), or the
process is terminated by a worker panic carrying a publish error. -/
inductive RunResult where
  | ret (e : Option String)
  | panicked (e : String)
deriving DecidableEq, Repr

/-- Two monotonic clock readings taken by a run (start and stop).  The field
`mono` embeds the Go runtime guarantee that `time.Now` readings used by
`time.Sub` are monotonic, so the second reading is never earlier. -/
structure Clock where
  start : Int
  stop : Int
  mono : start ≤ stop

/-- Observable outcome of one `PublishMessages` run: the publish invocations
made (in hand-over order), the console lines emitted, and how it ended. -/
structure RunTrace where
  publishes : List Envelope
  output : List String
  result : RunResult

/-- Embedding of `PublishMessages`: build the payload once (returning its
error, before any envelope is produced, if the randomness source errors);
produce `MessagesCount` envelopes; run them through the worker pool; on a
publish failure the process panics with that error and nothing is printed;
otherwise print the report line with elapsed time and the msg/s rate
`float64(ps.MessagesCount) / elapsed.Seconds()` (exact rational here) and
return nil.  `fmtDur` and `fmtRate` model the fmt rendering of a
`time.Duration` and a float64. -/
def PublishMessages (ps : PubSub) (readResult : Except String (Nat → UInt8))
    (pubBehavior : Nat → Option String) (clock : Clock)
    (fmtDur : Int → String) (fmtRate : Rat → String) : RunTrace :=
  match ps.payload readResult with
  | Except.error e => { publishes := [], output := [], result := RunResult.ret (some e) }
  | Except.ok pl =>
    match (publishLoop pubBehavior 0 (producedEnvelopes ps.MessagesCount pl)).2 with
    | some e =>
        { publishes := (publishLoop pubBehavior 0 (producedEnvelopes ps.MessagesCount pl)).1,
          output := [],
          result := RunResult.panicked e }
    | none =>
        { publishes := (publishLoop pubBehavior 0 (producedEnvelopes ps.MessagesCount pl)).1,
          output := ["added " ++ toString ps.MessagesCount ++ " messages in " ++
            fmtDur (clock.stop - clock.start) ++ ", " ++
            fmtRate ((ps.MessagesCount : Rat) /
              (((clock.stop - clock.start : Int) : Rat) / 1000000000)) ++
            " msg/s"],
          result := RunResult.ret none }

/-- A concrete pair of clock readings used by witness theorems. -/
def clock0 : Clock :=
  { start := 0, stop := 1000000000, mono := by omega }

/-- If every publish invocation succeeds, the pass panics nowhere and the
publisher is invoked once per envelope, preserving identifiers and payloads. -/
theorem publishLoop_all_ok (pubBehavior : Nat → Option String)
    (h : ∀ j, pubBehavior j = none) :
    ∀ (envs : List Envelope) (i : Nat),
      (publishLoop pubBehavior i envs).2 = none ∧
      (publishLoop pubBehavior i envs).1.map Envelope.uuid = envs.map Envelope.uuid ∧
      (publishLoop pubBehavior i envs).1.map Envelope.payload = envs.map Envelope.payload := by
  intro envs
  induction envs with
  | nil => intro i; simp [publishLoop]
  | cons env rest ih =>
      intro i
      have h2 := ih (i + 1)
      simp [publishLoop, h i, h2.1, h2.2.1, h2.2.2]

/-- Every envelope the publisher is invoked on comes from the produced list:
same identifier, same payload (only the correlation metadata was stamped). -/
theorem publishLoop_mem (pubBehavior : Nat → Option String) :
    ∀ (envs : List Envelope) (i : Nat) (env : Envelope),
      env ∈ (publishLoop pubBehavior i envs).1 →
      ∃ env0, env0 ∈ envs ∧ env.uuid = env0.uuid ∧ env.payload = env0.payload := by
  intro envs
  induction envs with
  | nil => intro i env hmem; simp [publishLoop] at hmem
  | cons e0 rest ih =>
      intro i env hmem
      cases hpb : pubBehavior i with
      | some err =>
          simp [publishLoop, hpb] at hmem
          exact ⟨e0, List.mem_cons_self e0 rest, by rw [hmem], by rw [hmem]⟩
      | none =>
          simp [publishLoop, hpb] at hmem
          rcases hmem with rfl | hmem2
          · exact ⟨e0, List.mem_cons_self e0 rest, rfl, rfl⟩
          · obtain ⟨env0, hm, hu, hp⟩ := ih (i + 1) env hmem2
            exact ⟨env0, List.mem_cons_of_mem e0 hm, hu, hp⟩

/-- If the first failing publish invocation is the k-th one and at least k+1
envelopes are handed over, the pass panics with that error after exactly k+1
publish invocations (each envelope invoked at most once: no retry). -/
theorem publishLoop_first_fail (pubBehavior : Nat → Option String) (e : String) :
    ∀ (envs : List Envelope) (i k : Nat),
      (∀ j, j < k → pubBehavior (i + j) = none) → pubBehavior (i + k) = some e →
      k < envs.length →
      (publishLoop pubBehavior i envs).2 = some e ∧
      (publishLoop pubBehavior i envs).1.length = k + 1 := by
  intro envs
  induction envs with
  | nil => intro i k _ _ hlt; simp at hlt
  | cons e0 rest ih =>
      intro i k hnone hfail hlt
      cases k with
      | zero =>
          have h0 : pubBehavior i = some e := by simpa using hfail
          simp [publishLoop, h0]
      | succ k =>
          have h0 : pubBehavior i = none := by simpa using hnone 0 (Nat.succ_pos k)
          have hrec := ih (i + 1) k
            (by
              intro j hj
              have h3 : i + 1 + j = i + (j + 1) := by omega
              rw [h3]
              exact hnone (j + 1) (by omega))
            (by
              have h4 : i + 1 + k = i + (k + 1) := by omega
              rw [h4]
              exact hfail)
            (by simpa using hlt)
          simp [publishLoop, h0, hrec.1, hrec.2]

/-- The producer loop builds exactly `count.toNat` envelopes. -/
theorem producedEnvelopes_length (count : Int) (payload : List UInt8) :
    (producedEnvelopes count payload).length = count.toNat := by
  simp [producedEnvelopes]

/-- Every produced envelope carries the shared payload buffer. -/
theorem producedEnvelopes_payload (count : Int) (payload : List UInt8) :
    ∀ env ∈ producedEnvelopes count payload, env.payload = payload := by
  intro env h
  simp [producedEnvelopes] at h
  obtain ⟨i, hi, rfl⟩ := h
  rfl

/-- The identifiers of the produced envelopes are pairwise distinct (each
iteration generates a fresh one). -/
theorem producedEnvelopes_nodup (count : Int) (payload : List UInt8) :
    ((producedEnvelopes count payload).map Envelope.uuid).Nodup := by
  simp only [producedEnvelopes, List.map_map]
  apply List.Nodup.map
  · intro a b hab
    simpa using hab
  · exact List.nodup_range count.toNat

/-- When the payload succeeds, the publish invocations of the run are exactly
the ones made by the worker pass, whether or not the pass panics. -/
theorem publishes_eq (ps : PubSub) (f : Nat → UInt8) (pubBehavior : Nat → Option String)
    (clock : Clock) (fmtDur : Int → String) (fmtRate : Rat → String) :
    (PublishMessages ps (Except.ok f) pubBehavior clock fmtDur fmtRate).publishes =
      (publishLoop pubBehavior 0 (producedEnvelopes ps.MessagesCount
        ((List.range ps.MessageSize.toNat).map f))).1 := by
  rcases h : (publishLoop pubBehavior 0 (producedEnvelopes ps.MessagesCount
      ((List.range ps.MessageSize.toNat).map f))).2 with _ | e <;>
    simp [PublishMessages, PubSub.payload, h]

/-- C1: message-count resolution in NewPubSub follows strict precedence.  For
every recognized backend name: a positive messagesCount argument wins; an
argument of 0 falls back to the definition default when that is non-zero,
otherwise to the global default of 1,000,000. -/
theorem c1_message_count_resolution (name topic : String) (m s : Int)
    (d : PubSubDefinition) (h : pubSubDefinitions name = some d) :
    ∃ ps : PubSub, (NewPubSub name topic m s).1 = Except.ok ps ∧
      (0 < m → ps.MessagesCount = m) ∧
      (m = 0 → d.MessagesCount ≠ 0 → ps.MessagesCount = d.MessagesCount) ∧
      (m = 0 → d.MessagesCount = 0 → ps.MessagesCount = 1000000) := by
  unfold NewPubSub
  rw [h]
  refine ⟨_, rfl, ?_, ?_, ?_⟩
  · intro hm
    show (if m = 0 then _ else m) = m
    rw [if_neg (by omega)]
  · intro hm hd
    show (if m = 0 then if d.MessagesCount ≠ 0 then d.MessagesCount else _ else m) =
      d.MessagesCount
    rw [if_pos hm, if_pos hd]
  · intro hm hd
    show (if m = 0 then if d.MessagesCount ≠ 0 then _ else defaultMessagesCount else m) =
      1000000
    rw [if_pos hm, if_neg (by simp [hd]), defaultMessagesCount]

/-- Witness for C1: the gochannel backend has definition default 0, so an
argument of 0 resolves to the global default 1,000,000. -/
theorem c1_message_count_resolution_witness :
    ∃ ps : PubSub, (NewPubSub "gochannel" "t" 0 16).1 = Except.ok ps ∧
      ps.MessagesCount = 1000000 := by
  obtain ⟨ps, hok, h1, h2, h3⟩ :=
    c1_message_count_resolution "gochannel" "t" 0 16 { MessagesCount := 0, UUIDFunc := none } rfl
  exact ⟨ps, hok, h3 rfl rfl⟩

/-- C5: for every backend name not in the registry, NewPubSub fails with the
unknown-backend error and performs no side effects: the constructor is never
invoked, so no publisher, subscriber or worker pool is created. -/
theorem c5_unknown_backend (name topic : String) (m s : Int)
    (h : pubSubDefinitions name = none) :
    NewPubSub name topic m s = (Except.error ("unknown PubSub: " ++ name), []) := by
  unfold NewPubSub
  rw [h]

/-- Witness for C5: the name doesnotexist is not in the registry. -/
theorem c5_unknown_backend_witness :
    NewPubSub "doesnotexist" "t" 1 1 = (Except.error "unknown PubSub: doesnotexist", []) := by
  have h := c5_unknown_backend "doesnotexist" "t" 1 1 rfl
  simpa using h

/-- C9 counterexample: the gochannel definition leaves the identifier
generator unset, and the session returned by NewPubSub then has UUIDFunc nil:
no defaulting to a generic unique-id function takes place. -/
theorem c9_counterexample_gochannel_uuid_func_nil :
    ∃ ps : PubSub, (NewPubSub "gochannel" "t" 1 1).1 = Except.ok ps ∧ ps.UUIDFunc = none := by
  exact ⟨_, rfl, rfl⟩

/-- C9 amended: the session returned by NewPubSub carries the definition
identifier generator unchanged; a definition that leaves it unset yields a
session whose UUIDFunc is unset (nil) as well. -/
theorem c9_uuid_func_passthrough (name topic : String) (m s : Int)
    (d : PubSubDefinition) (h : pubSubDefinitions name = some d) :
    ∃ ps : PubSub, (NewPubSub name topic m s).1 = Except.ok ps ∧
      ps.UUIDFunc = d.UUIDFunc := by
  unfold NewPubSub
  rw [h]
  exact ⟨_, rfl, rfl⟩

/-- Witness for the amended C9: the mysql session carries the binary-ULID
generator designated by the mysql definition. -/
theorem c9_uuid_func_passthrough_witness :
    ∃ ps : PubSub, (NewPubSub "mysql" "t" 1 1).1 = Except.ok ps ∧
      ps.UUIDFunc = some IdGen.newBinaryULID := by
  obtain ⟨ps, hok, hu⟩ := c9_uuid_func_passthrough "mysql" "t" 1 1
    { MessagesCount := 30000, UUIDFunc := some IdGen.newBinaryULID } rfl
  exact ⟨ps, hok, hu⟩

/-- C10: for every recognized backend and every strictly negative
messagesCount argument, NewPubSub succeeds and the session MessagesCount is
that negative argument unchanged: the fallback triggers only at exactly 0. -/
theorem c10_negative_count_passthrough (name topic : String) (m s : Int)
    (d : PubSubDefinition) (h : pubSubDefinitions name = some d) (hneg : m < 0) :
    ∃ ps : PubSub, (NewPubSub name topic m s).1 = Except.ok ps ∧
      ps.MessagesCount = m := by
  unfold NewPubSub
  rw [h]
  refine ⟨_, rfl, ?_⟩
  show (if m = 0 then _ else m) = m
  rw [if_neg (by omega)]

/-- Witness for C10: gochannel with messagesCount -5 yields a session whose
MessagesCount is -5. -/
theorem c10_negative_count_passthrough_witness :
    ∃ ps : PubSub, (NewPubSub "gochannel" "t" (-5) 16).1 = Except.ok ps ∧
      ps.MessagesCount = -5 := by
  exact c10_negative_count_passthrough "gochannel" "t" (-5) 16
    { MessagesCount := 0, UUIDFunc := none } rfl (by omega)

/-- C2 counterexample: when the publisher close fails, Close returns that
error immediately and the subscriber close is never invoked, contradicting
the claim that both releases are always attempted. -/
theorem c2_counterexample_subscriber_not_closed :
    (PubSub.Close { MessagesCount := 1, MessageSize := 1, Topic := "t", UUIDFunc := none }
        (some "close failed") none).1 = some "close failed" ∧
    (PubSub.Close { MessagesCount := 1, MessageSize := 1, Topic := "t", UUIDFunc := none }
        (some "close failed") none).2 = [CloseCall.pub] ∧
    CloseCall.sub ∉
      (PubSub.Close { MessagesCount := 1, MessageSize := 1, Topic := "t", UUIDFunc := none }
        (some "close failed") none).2 := by
  refine ⟨rfl, rfl, ?_⟩
  decide

/-- C2 amended: Close releases the publisher first; if that close fails, the
error is returned immediately and the subscriber close is not attempted;
otherwise the subscriber is closed and its result is returned. -/
theorem c2_close_short_circuits (ps : PubSub) (pubCloseErr subCloseErr : Option String) :
    (∀ e, pubCloseErr = some e →
      PubSub.Close ps pubCloseErr subCloseErr = (some e, [CloseCall.pub])) ∧
    (pubCloseErr = none →
      PubSub.Close ps pubCloseErr subCloseErr = (subCloseErr, [CloseCall.pub, CloseCall.sub])) := by
  constructor
  · intro e he
    rw [he]
    rfl
  · intro he
    rw [he]
    rfl

/-- Witness for the amended C2: both branches evaluated at concrete close
results. -/
theorem c2_close_short_circuits_witness :
    PubSub.Close { MessagesCount := 1, MessageSize := 1, Topic := "t", UUIDFunc := none }
      (some "boom") none = (some "boom", [CloseCall.pub]) ∧
    PubSub.Close { MessagesCount := 1, MessageSize := 1, Topic := "t", UUIDFunc := none }
      none (some "later") = (some "later", [CloseCall.pub, CloseCall.sub]) := by
  constructor
  · exact (c2_close_short_circuits
      { MessagesCount := 1, MessageSize := 1, Topic := "t", UUIDFunc := none }
      (some "boom") none).1 "boom" rfl
  · exact (c2_close_short_circuits
      { MessagesCount := 1, MessageSize := 1, Topic := "t", UUIDFunc := none }
      none (some "later")).2 rfl

/-- C6: with a positive resolved count the producer iterates exactly
MessagesCount times, building one envelope per iteration with a fresh
identifier and the shared payload, and a completed run makes exactly
MessagesCount publish invocations. -/
theorem c6_exact_publish_count (ps : PubSub) (f : Nat → UInt8)
    (pubBehavior : Nat → Option String) (clock : Clock)
    (fmtDur : Int → String) (fmtRate : Rat → String)
    (hpos : 0 < ps.MessagesCount) (hok : ∀ i, pubBehavior i = none) :
    (∀ pl : List UInt8,
      ((producedEnvelopes ps.MessagesCount pl).length : Int) = ps.MessagesCount ∧
      ((producedEnvelopes ps.MessagesCount pl).map Envelope.uuid).Nodup ∧
      ∀ env ∈ producedEnvelopes ps.MessagesCount pl, env.payload = pl) ∧
    ((PublishMessages ps (Except.ok f) pubBehavior clock fmtDur fmtRate).publishes.length :
      Int) = ps.MessagesCount := by
  have hcast : (ps.MessagesCount.toNat : Int) = ps.MessagesCount :=
    Int.toNat_of_nonneg (le_of_lt hpos)
  constructor
  · intro pl
    refine ⟨?_, producedEnvelopes_nodup ps.MessagesCount pl,
      producedEnvelopes_payload ps.MessagesCount pl⟩
    rw [producedEnvelopes_length]
    exact hcast
  · rw [publishes_eq]
    have hall := publishLoop_all_ok pubBehavior hok
      (producedEnvelopes ps.MessagesCount ((List.range ps.MessageSize.toNat).map f)) 0
    have hlen := congrArg List.length hall.2.1
    simp only [List.length_map] at hlen
    rw [hlen, producedEnvelopes_length]
    exact hcast

/-- Witness for C6: a 3-message run on a 2-byte payload makes exactly 3
publish invocations. -/
theorem c6_exact_publish_count_witness :
    ((producedEnvelopes (3 : Int) [7, 7]).length : Int) = 3 ∧
    (((PublishMessages { MessagesCount := 3, MessageSize := 2, Topic := "t", UUIDFunc := none }
        (Except.ok fun _ => 7) (fun _ => none) clock0 (fun _ => "") (fun _ => "")).publishes.length :
      Int) = 3) := by
  have h := c6_exact_publish_count
    { MessagesCount := 3, MessageSize := 2, Topic := "t", UUIDFunc := none }
    (fun _ => 7) (fun _ => none) clock0 (fun _ => "") (fun _ => "")
    (by decide) (fun _ => rfl)
  exact ⟨(h.1 [7, 7]).1, h.2⟩

/-- C7: the payload generator yields a buffer of exactly MessageSize bytes or
passes the randomness-source error through; it is computed once per run,
before any envelope is produced, and every published envelope of the run
carries that same buffer. -/
theorem c7_payload_once_exact_size (ps : PubSub) (hsize : 0 ≤ ps.MessageSize) :
    (∀ e, ps.payload (Except.error e) = Except.error e) ∧
    (∀ (f : Nat → UInt8) (pubBehavior : Nat → Option String) (clock : Clock)
        (fmtDur : Int → String) (fmtRate : Rat → String),
      ∃ pl : List UInt8, ps.payload (Except.ok f) = Except.ok pl ∧
        (pl.length : Int) = ps.MessageSize ∧
        ∀ env ∈ (PublishMessages ps (Except.ok f) pubBehavior clock fmtDur fmtRate).publishes,
          env.payload = pl) := by
  constructor
  · intro e
    rfl
  · intro f pubBehavior clock fmtDur fmtRate
    refine ⟨(List.range ps.MessageSize.toNat).map f, rfl, ?_, ?_⟩
    · simp [Int.toNat_of_nonneg hsize]
    · intro env hmem
      rw [publishes_eq] at hmem
      obtain ⟨env0, hm, hu, hp⟩ := publishLoop_mem pubBehavior _ 0 env hmem
      rw [hp]
      exact producedEnvelopes_payload _ _ env0 hm

/-- Witness for C7: a 4-byte configuration yields a 4-byte buffer, and an
erroring randomness source passes its error through. -/
theorem c7_payload_once_exact_size_witness :
    PubSub.payload { MessagesCount := 1, MessageSize := 4, Topic := "t", UUIDFunc := none }
      (Except.error "rng broken") = Except.error "rng broken" ∧
    ∃ pl : List UInt8,
      PubSub.payload { MessagesCount := 1, MessageSize := 4, Topic := "t", UUIDFunc := none }
        (Except.ok fun _ => 9) = Except.ok pl ∧ (pl.length : Int) = 4 := by
  have h := c7_payload_once_exact_size
    { MessagesCount := 1, MessageSize := 4, Topic := "t", UUIDFunc := none } (by decide)
  obtain ⟨pl, h1, h2, h3⟩ := h.2 (fun _ => 9) (fun _ => none) clock0 (fun _ => "") (fun _ => "")
  exact ⟨h.1 "rng broken", pl, h1, h2⟩

/-- C8: on successful completion one console line of the literal format
added-count-messages-in-duration-rate is emitted, the rate being
MessagesCount divided by the elapsed seconds (elapsed nanoseconds over 1e9),
and the elapsed time is non-negative. -/
theorem c8_report_line (ps : PubSub) (f : Nat → UInt8)
    (pubBehavior : Nat → Option String) (clock : Clock)
    (fmtDur : Int → String) (fmtRate : Rat → String)
    (hok : ∀ i, pubBehavior i = none) :
    (PublishMessages ps (Except.ok f) pubBehavior clock fmtDur fmtRate).output =
      ["added " ++ toString ps.MessagesCount ++ " messages in " ++
        fmtDur (clock.stop - clock.start) ++ ", " ++
        fmtRate ((ps.MessagesCount : Rat) /
          (((clock.stop - clock.start : Int) : Rat) / 1000000000)) ++
        " msg/s"] ∧
    0 ≤ clock.stop - clock.start ∧
    (PublishMessages ps (Except.ok f) pubBehavior clock fmtDur fmtRate).result =
      RunResult.ret none := by
  have hall := publishLoop_all_ok pubBehavior hok
    (producedEnvelopes ps.MessagesCount ((List.range ps.MessageSize.toNat).map f)) 0
  refine ⟨?_, sub_nonneg.mpr clock.mono, ?_⟩
  · simp [PublishMessages, PubSub.payload, hall.1]
  · simp [PublishMessages, PubSub.payload, hall.1]

/-- Witness for C8: a completed 2-message run emits exactly the report line,
with the formatter outputs spliced in. -/
theorem c8_report_line_witness :
    (PublishMessages { MessagesCount := 2, MessageSize := 3, Topic := "t", UUIDFunc := none }
        (Except.ok fun _ => 0) (fun _ => none) clock0 (fun _ => "1s") (fun _ => "2.0")).output =
      ["added 2 messages in 1s, 2.0 msg/s"] ∧
    0 ≤ clock0.stop - clock0.start := by
  have h := c8_report_line
    { MessagesCount := 2, MessageSize := 3, Topic := "t", UUIDFunc := none }
    (fun _ => 0) (fun _ => none) clock0 (fun _ => "1s") (fun _ => "2.0") (fun _ => rfl)
  refine ⟨?_, h.2.1⟩
  rw [h.1]
  rfl

/-- C3 counterexample: a publish failure on the third hand-over of a
5-message run aborts the run with no report line, but the run ends in a
process-terminating panic: no error value is returned to the caller, so the
claim that the error surfaces to the caller fails. -/
theorem c3_counterexample_panic_not_returned :
    (PublishMessages { MessagesCount := 5, MessageSize := 4, Topic := "t", UUIDFunc := none }
        (Except.ok fun _ => 0) (fun i => if i = 2 then some "publish failed" else none) clock0
        (fun _ => "") (fun _ => "")).result = RunResult.panicked "publish failed" ∧
    (PublishMessages { MessagesCount := 5, MessageSize := 4, Topic := "t", UUIDFunc := none }
        (Except.ok fun _ => 0) (fun i => if i = 2 then some "publish failed" else none) clock0
        (fun _ => "") (fun _ => "")).output = [] ∧
    ∀ e, (PublishMessages { MessagesCount := 5, MessageSize := 4, Topic := "t", UUIDFunc := none }
        (Except.ok fun _ => 0) (fun i => if i = 2 then some "publish failed" else none) clock0
        (fun _ => "") (fun _ => "")).result ≠ RunResult.ret (some e) := by
  refine ⟨by decide, by decide, ?_⟩
  intro e h
  have h2 : (PublishMessages
      { MessagesCount := 5, MessageSize := 4, Topic := "t", UUIDFunc := none }
      (Except.ok fun _ => 0) (fun i => if i = 2 then some "publish failed" else none) clock0
      (fun _ => "") (fun _ => "")).result = RunResult.panicked "publish failed" := by decide
  rw [h2] at h
  simp at h

/-- C3 amended: when the first publish failure is the k-th invocation of a
run with at least k+1 messages, the run aborts at once with no retry (exactly
k+1 publish invocations), no throughput line is emitted, and the run ends in
a process-terminating panic carrying the error instead of returning it to the
caller. -/
theorem c3_publish_failure_panics (ps : PubSub) (f : Nat → UInt8)
    (pubBehavior : Nat → Option String) (clock : Clock)
    (fmtDur : Int → String) (fmtRate : Rat → String) (k : Nat) (e : String)
    (hbefore : ∀ j, j < k → pubBehavior j = none) (hfail : pubBehavior k = some e)
    (hlt : k < ps.MessagesCount.toNat) :
    (PublishMessages ps (Except.ok f) pubBehavior clock fmtDur fmtRate).result =
      RunResult.panicked e ∧
    (PublishMessages ps (Except.ok f) pubBehavior clock fmtDur fmtRate).output = [] ∧
    (PublishMessages ps (Except.ok f) pubBehavior clock fmtDur fmtRate).publishes.length =
      k + 1 ∧
    ∀ e2, (PublishMessages ps (Except.ok f) pubBehavior clock fmtDur fmtRate).result ≠
      RunResult.ret (some e2) := by
  have hff := publishLoop_first_fail pubBehavior e
    (producedEnvelopes ps.MessagesCount ((List.range ps.MessageSize.toNat).map f)) 0 k
    (by
      intro j hj
      simpa using hbefore j hj)
    (by simpa using hfail)
    (by
      rw [producedEnvelopes_length]
      exact hlt)
  refine ⟨?_, ?_, ?_, ?_⟩
  · simp [PublishMessages, PubSub.payload, hff.1]
  · simp [PublishMessages, PubSub.payload, hff.1]
  · rw [publishes_eq]
    exact hff.2
  · intro e2
    simp [PublishMessages, PubSub.payload, hff.1]

/-- Witness for the amended C3: failure at the second invocation of a
4-message run panics after exactly 2 publish invocations. -/
theorem c3_publish_failure_panics_witness :
    (PublishMessages { MessagesCount := 4, MessageSize := 2, Topic := "t", UUIDFunc := none }
        (Except.ok fun _ => 7) (fun i => if i = 1 then some "boom" else none) clock0
        (fun _ => "") (fun _ => "")).result = RunResult.panicked "boom" ∧
    (PublishMessages { MessagesCount := 4, MessageSize := 2, Topic := "t", UUIDFunc := none }
        (Except.ok fun _ => 7) (fun i => if i = 1 then some "boom" else none) clock0
        (fun _ => "") (fun _ => "")).output = [] ∧
    (PublishMessages { MessagesCount := 4, MessageSize := 2, Topic := "t", UUIDFunc := none }
        (Except.ok fun _ => 7) (fun i => if i = 1 then some "boom" else none) clock0
        (fun _ => "") (fun _ => "")).publishes.length = 2 := by
  have h := c3_publish_failure_panics
    { MessagesCount := 4, MessageSize := 2, Topic := "t", UUIDFunc := none }
    (fun _ => 7) (fun i => if i = 1 then some "boom" else none) clock0
    (fun _ => "") (fun _ => "") 1 "boom"
    (by
      intro j hj
      have hj0 : j = 0 := by omega
      rw [hj0]
      rfl)
    rfl
    (by decide)
  exact ⟨h.1, h.2.1, h.2.2.1⟩

/-- C4: the mysql definition designates the binary-ULID generator and the
session carries it, but every envelope of a run is built with the fixed
watermill-ULID generator: the session UUIDFunc is never consulted, so the
published identifier generator differs from the backend-appropriate one. -/
theorem c4_publish_ignores_session_uuid_func :
    (NewPubSub "mysql" "t" 3 8).1 =
      Except.ok { MessagesCount := 3, MessageSize := 8, Topic := "t",
                  UUIDFunc := some IdGen.newBinaryULID } ∧
    (PublishMessages
        { MessagesCount := 3, MessageSize := 8, Topic := "t",
          UUIDFunc := some IdGen.newBinaryULID }
        (Except.ok fun _ => 0) (fun _ => none) clock0
        (fun _ => "") (fun _ => "")).publishes.length = 3 ∧
    ∀ env ∈ (PublishMessages
        { MessagesCount := 3, MessageSize := 8, Topic := "t",
          UUIDFunc := some IdGen.newBinaryULID }
        (Except.ok fun _ => 0) (fun _ => none) clock0
        (fun _ => "") (fun _ => "")).publishes,
      env.uuid.gen = IdGen.watermillNewULID ∧
      some env.uuid.gen ≠ (some IdGen.newBinaryULID : Option IdGen) := by
  refine ⟨rfl, by decide, by decide⟩
